import Mathlib

/-!
Verification of the StudioFlow application (`app.py`): a shallow embedding
of the Groq AI dispatch layer (`get_groq_client`, `call_groq`), the login
form (`login_ui` over the hard-coded `USERS` table), and the budget
utilization computations in `render_projects` and `render_analytics`,
together with theorems settling the specification claims about them.
-/

set_option autoImplicit false

namespace StudioFlow

/-! ### The AI dispatch layer (`app.py` lines 20-78) -/

/-- `MODEL_NAME` constant, `app.py` line 21. -/
def MODEL_NAME : String := "llama-3.3-70b-versatile"

/-- One message of the chat exchange: a `role`/`content` pair, as built in
`call_groq`'s `messages` list. -/
structure ChatMessage where
  role : String
  content : String
deriving DecidableEq, Repr

/-- The outbound chat-completion request constructed by
`client.chat.completions.create(...)` in `call_groq` (`app.py` lines 67-75):
model identifier, message list, temperature and max output tokens.
Python's float literal is embedded as a rational. -/
structure ChatRequest where
  model : String
  messages : List ChatMessage
  temperature : ℚ
  maxTokens : ℕ
deriving DecidableEq, Repr

/-- One element of the `choices` array of the response payload. -/
structure Choice where
  message : ChatMessage
deriving DecidableEq, Repr

/-- The response object returned by the SDK on a 2xx exchange. -/
structure ChatCompletion where
  choices : List Choice
deriving DecidableEq, Repr

/-- Outcome of one outbound call: either the SDK hands back a completion
object, or it raises an exception (network error, non-2xx response,
malformed payload) whose `str(e)` is `detail`. -/
inductive CallOutcome where
  | completes (c : ChatCompletion)
  | raises (detail : String)
deriving DecidableEq, Repr

/-- The `Groq(api_key=...)` client object, `app.py` line 59. -/
structure GroqClient where
  apiKey : String
deriving DecidableEq, Repr

/-- Python truthiness of `api_key` after `os.getenv`: `None` and the empty
string are falsy, any other string is truthy (`if not api_key:` on line 54). -/
def truthy (o : Option String) : Bool :=
  match o with
  | none => false
  | some s => !(s == "")

/-- `get_groq_client` (`app.py` lines 52-59).

The process environment and the Streamlit secrets store are embedded as
partial maps from key names to values: `env k = none` means the variable is
unset (`os.getenv` returns `None`), `secrets k = none` means the key is
absent from the store (`st.secrets[k]` raises, caught by the bare
`except:` which returns `None`).  Faithful to the source: the environment
value is used only when it is truthy; otherwise the secrets store is
consulted; a secrets miss yields `None`, the missing sentinel. -/
def get_groq_client (env secrets : String → Option String) : Option GroqClient :=
  if truthy (env "GROQ_API_KEY") then
    some ⟨(env "GROQ_API_KEY").getD ""⟩
  else
    match secrets "GROQ_API_KEY" with
    | some k => some ⟨k⟩
    | none => none

/-- The request `call_groq` constructs for a given prompt pair
(`app.py` lines 67-75): fixed model, system message then user message,
temperature `0.7`, `max_tokens` `1024`. -/
def buildRequest (system_prompt user_prompt : String) : ChatRequest :=
  { model := MODEL_NAME
  , messages := [⟨"system", system_prompt⟩, ⟨"user", user_prompt⟩]
  , temperature := 7/10
  , maxTokens := 1024 }

/-- `str(e)` for the `IndexError` raised by `completion.choices[0]` on an
empty `choices` list. -/
def indexErrorDetail : String := "list index out of range"

/-- `call_groq` (`app.py` lines 61-78).

`world` models the external network: it maps the client and the constructed
request to the outcome of the one `create` call.  The second component of
the result is the list of outbound requests issued during the call, so that
theorems can speak about how many network attempts were made.

Faithful to the source: a missing client short-circuits with the fixed
error string and no request; otherwise exactly one request is issued and
either the first choice's `message.content` is returned verbatim, or the
exception raised inside the `try` block (including the `IndexError` from
`choices[0]` on an empty list) is converted to `"API Error: " ++ str(e)`. -/
def call_groq (env secrets : String → Option String)
    (world : GroqClient → ChatRequest → CallOutcome)
    (system_prompt user_prompt : String) : String × List ChatRequest :=
  match get_groq_client env secrets with
  | none =>
      ("Error: GROQ_API_KEY not found in environment variables or Streamlit secrets.", [])
  | some client =>
      let req := buildRequest system_prompt user_prompt
      let result :=
        match world client req with
        | .completes c =>
            match c.choices with
            | [] => "API Error: " ++ indexErrorDetail
            | ch :: _ => ch.message.content
        | .raises detail => "API Error: " ++ detail
      (result, [req])

/-- `true` when the character list `p` is an initial segment of `l`. -/
def leadsWith (p l : List Char) : Bool :=
  match p, l with
  | [], _ => true
  | _ :: _, [] => false
  | a :: as, b :: bs => a == b && leadsWith as bs

/-- `true` when the character list `p` occurs (contiguously) inside `l`. -/
def containsSeq (p l : List Char) : Bool :=
  match l with
  | [] => leadsWith p []
  | _ :: cs => leadsWith p l || containsSeq p cs

/-- `true` when `pat` occurs as a substring of `s`. -/
def containsStr (s pat : String) : Bool :=
  containsSeq pat.data s.data

/-- `true` when `pre` is an initial segment of `s`. -/
def beginsWithStr (s pre : String) : Bool :=
  leadsWith pre.data s.data

/-- The suffix of `l` strictly after the last occurrence of `p`, or `none`
when `p` does not occur in `l`. -/
def afterLast (p l : List Char) : Option (List Char) :=
  match l with
  | [] => none
  | c :: cs =>
      match afterLast p cs with
      | some r => some r
      | none => if leadsWith p (c :: cs) then some ((c :: cs).drop p.length) else none

/-- Whitespace trimming at both ends of a character list (Python `strip`). -/
def trimChars (l : List Char) : List Char :=
  ((l.dropWhile Char.isWhitespace).reverse.dropWhile Char.isWhitespace).reverse

/-- Modelled from the spec: the Response Normalizer described in §4.4 and
§8 of the specification, which this source variant does not implement.
If the text contains the literal reasoning-block closing marker
`"</think>"`, keep the whitespace-trimmed substring after its last
occurrence; otherwise return the text unchanged. -/
def specNormalize (raw : String) : String :=
  match afterLast "</think>".data raw.data with
  | some suffix => ⟨trimChars suffix⟩
  | none => raw

/-! ### Authentication (`app.py` lines 24-28, 99-124) -/

/-- One record of the mock user database. -/
structure UserRec where
  password : String
  name : String
  role : String
deriving DecidableEq, Repr

/-- `USERS` (`app.py` lines 24-28), as an association list keyed by
username. -/
def USERS : List (String × UserRec) :=
  [ ("admin", ⟨"password", "System Admin", "Admin"⟩)
  , ("director", ⟨"password", "Lead Director", "Director"⟩)
  , ("artist", ⟨"password", "Senior CGI Artist", "Artist"⟩) ]

/-- `username in USERS` / `USERS[username]`: dictionary lookup. -/
def lookupUser (username : String) : Option UserRec :=
  (USERS.find? (fun p => p.fst == username)).map Prod.snd

/-- The part of `st.session_state` the login form touches: the
`authenticated` flag (`check_auth` reads it, defaulting to `False`) and the
stored `user` record. -/
structure SessionState where
  authenticated : Bool
  user : Option UserRec
deriving DecidableEq, Repr

/-- The submit branch of `login_ui` (`app.py` lines 113-119) as a step
function on the session state.  Returns the new state together with a flag
that is `true` exactly when `st.error("Invalid credentials.")` ran. -/
def login_submit (st : SessionState) (username password : String) :
    SessionState × Bool :=
  match lookupUser username with
  | some u =>
      if u.password == password then
        ({ authenticated := true, user := some u }, false)
      else
        (st, true)
  | none => (st, true)

/-! ### Budget utilization (`app.py` lines 169-170 and 272-275) -/

/-- Python `/` on numbers: raises `ZeroDivisionError` on a zero divisor,
embedded as `none`. -/
def pyDivide (a b : ℚ) : Option ℚ :=
  if b = 0 then none else some (a / b)

/-- Python `int()` on a float: truncation toward zero. -/
def pyInt (q : ℚ) : ℤ :=
  if 0 ≤ q then ⌊q⌋ else -⌊-q⌋

/-- The two numeric columns of a project row that the percentage
computations read. -/
structure ProjectRow where
  budget : ℚ
  spent : ℚ
deriving DecidableEq, Repr

/-- `budget_pct` in `render_projects` (`app.py` line 169):
`int((row['spent'] / row['budget']) * 100) if row['budget'] > 0 else 0`.
The division is embedded fallibly so that "never divides by zero" is a
provable statement. -/
def projectsBudgetPct (row : ProjectRow) : Option ℤ :=
  if row.budget > 0 then
    (pyDivide row.spent row.budget).map (fun q => pyInt (q * 100))
  else
    some 0

/-- `pct` in `render_analytics` (`app.py` line 273): the same guarded
expression, written at its own call site. -/
def analyticsBudgetPct (row : ProjectRow) : Option ℤ :=
  if row.budget > 0 then
    (pyDivide row.spent row.budget).map (fun q => pyInt (q * 100))
  else
    some 0

/-! ### Claims about the dispatch layer -/

/-- C1 (counterexample): the claim says the error string returned when the
outbound call raises begins with `"Groq API Error: "`.  With a valid
credential and a call that raises `"connection refused"`, `call_groq`
returns `"API Error: connection refused"`, which does not begin with
`"Groq API Error: "`. -/
theorem c1_counterexample :
    (call_groq (fun _ => some "sk-test") (fun _ => none)
        (fun _ _ => .raises "connection refused") "sys" "usr").fst
      = "API Error: connection refused"
    ∧ beginsWithStr "API Error: connection refused" "Groq API Error: " = false := by
  exact ⟨rfl, by decide⟩

/-- C1 (amended): if the outbound call raises any error, `call_groq`
catches it and returns a human-readable error string prefixed with
`"API Error: "` followed by the underlying detail (the provider's name is
not included), performs no retry (exactly one request was issued) and
returns no partial result. -/
theorem c1_amended_error_string (env secrets : String → Option String)
    (world : GroqClient → ChatRequest → CallOutcome)
    (sp up detail : String) (client : GroqClient)
    (hc : get_groq_client env secrets = some client)
    (hw : world client (buildRequest sp up) = .raises detail) :
    call_groq env secrets world sp up
      = ("API Error: " ++ detail, [buildRequest sp up]) := by
  unfold call_groq
  rw [hc]
  simp only [hw]

/-- C1 (witness): the amended theorem at a concrete environment, world and
prompt pair. -/
theorem c1_witness :
    call_groq (fun _ => some "sk-test") (fun _ => none)
        (fun _ _ => .raises "boom") "s" "u"
      = ("API Error: boom", [buildRequest "s" "u"]) :=
  c1_amended_error_string _ _ _ "s" "u" "boom" ⟨"sk-test"⟩ rfl rfl

/-- C2: if the credential is absent from both the environment (falsy value)
and the secrets store, `call_groq` returns the descriptive error string and
issues no outbound request at all (the request log is empty). -/
theorem c2_missing_credential_short_circuits
    (env secrets : String → Option String)
    (world : GroqClient → ChatRequest → CallOutcome) (sp up : String)
    (henv : truthy (env "GROQ_API_KEY") = false)
    (hsec : secrets "GROQ_API_KEY" = none) :
    call_groq env secrets world sp up
      = ("Error: GROQ_API_KEY not found in environment variables or Streamlit secrets.",
         []) := by
  unfold call_groq get_groq_client
  rw [henv, hsec]
  rfl

/-- C2 (witness): the theorem at a concrete empty environment and empty
secrets store. -/
theorem c2_witness :
    call_groq (fun _ => none) (fun _ => none)
        (fun _ _ => .raises "never reached") "s" "u"
      = ("Error: GROQ_API_KEY not found in environment variables or Streamlit secrets.",
         []) :=
  c2_missing_credential_short_circuits _ _ _ "s" "u" rfl rfl

/-- C3 (counterexample): the claim says the secrets store is read only if
the environment variable is absent.  With the environment variable present
but holding the empty string, the resolver still reads the secrets store:
its result is the secrets value when the store has one, and the missing
sentinel when it does not, even though the variable is present. -/
theorem c3_counterexample :
    (fun k => if k == "GROQ_API_KEY" then some "" else none) "GROQ_API_KEY" = some ""
    ∧ get_groq_client (fun k => if k == "GROQ_API_KEY" then some "" else none)
        (fun _ => some "sk-2") = some ⟨"sk-2"⟩
    ∧ get_groq_client (fun k => if k == "GROQ_API_KEY" then some "" else none)
        (fun _ => none) = none := by
  refine ⟨rfl, rfl, rfl⟩

/-- C3 (amended): the resolver reads the environment variable first and
uses its value whenever that value is non-empty; if the variable is unset
or empty, the result is exactly the same-named secrets-store entry when
present, and the missing sentinel (`none`) when absent.  It never throws:
`get_groq_client` is a total function into `Option`. -/
theorem c3_amended_resolution_order (env secrets : String → Option String) :
    (∀ k, env "GROQ_API_KEY" = some k → k ≠ "" →
        get_groq_client env secrets = some ⟨k⟩)
    ∧ (truthy (env "GROQ_API_KEY") = false →
        get_groq_client env secrets
          = (secrets "GROQ_API_KEY").map (fun k => ⟨k⟩)) := by
  constructor
  · intro k hk hne
    unfold get_groq_client
    rw [hk]
    simp [truthy, hne]
  · intro h
    unfold get_groq_client
    rw [h]
    cases hs : secrets "GROQ_API_KEY" <;> rfl

/-- C3 (witness): the amended theorem at concrete sources — a non-empty
environment value wins regardless of the secrets store. -/
theorem c3_witness :
    get_groq_client (fun _ => some "sk-env") (fun _ => some "sk-sec")
      = some ⟨"sk-env"⟩ :=
  (c3_amended_resolution_order (fun _ => some "sk-env") (fun _ => some "sk-sec")).1
    "sk-env" rfl (by decide)

/-- C4 (counterexample): the claim says a raw completion containing the
reasoning-block closing marker is delivered as the trimmed substring after
the last marker.  The code delivers the raw string unchanged: on the
concrete payload `"<thinking>...</think>Final answer here"` the caller
receives the full string, not the post-marker remainder that the
spec-modelled normalizer produces. -/
theorem c4_counterexample :
    (call_groq (fun _ => some "sk-test") (fun _ => none)
        (fun _ _ => .completes ⟨[⟨⟨"assistant", "<thinking>...</think>Final answer here"⟩⟩]⟩)
        "s" "u").fst
      = "<thinking>...</think>Final answer here"
    ∧ specNormalize "<thinking>...</think>Final answer here" = "Final answer here"
    ∧ "<thinking>...</think>Final answer here" ≠ "Final answer here" := by
  refine ⟨rfl, by decide, by decide⟩

/-- C4 (amended): for every raw completion string returned by the provider,
the result delivered to the caller equals the input unchanged (identity):
this variant performs no marker stripping at all. -/
theorem c4_amended_no_normalization (env secrets : String → Option String)
    (world : GroqClient → ChatRequest → CallOutcome)
    (sp up : String) (ch : Choice) (rest : List Choice) (client : GroqClient)
    (hc : get_groq_client env secrets = some client)
    (hw : world client (buildRequest sp up) = .completes ⟨ch :: rest⟩) :
    (call_groq env secrets world sp up).fst = ch.message.content := by
  unfold call_groq
  rw [hc]
  simp only [hw]

/-- C4 (witness): the amended theorem at a concrete payload that contains
the marker — it is passed through unchanged. -/
theorem c4_witness :
    (call_groq (fun _ => some "sk-test") (fun _ => none)
        (fun _ _ => .completes ⟨[⟨⟨"assistant", "a</think> b"⟩⟩]⟩) "s" "u").fst
      = "a</think> b" :=
  c4_amended_no_normalization _ _ _ "s" "u" ⟨⟨"assistant", "a</think> b"⟩⟩ [] ⟨"sk-test"⟩
    rfl rfl

/-- C5 (counterexample): the claim says the result is either a non-empty
normalized completion or an error string containing the provider's name.
With a valid credential: a raised `"timeout"` yields
`"API Error: timeout"`, which does not contain `"Groq"`; and a completion
whose first choice's content is empty yields the empty string, which is
neither non-empty nor an error string. -/
theorem c5_counterexample :
    ((call_groq (fun _ => some "sk-test") (fun _ => none)
          (fun _ _ => .raises "timeout") "s" "u").fst = "API Error: timeout"
      ∧ containsStr "API Error: timeout" "Groq" = false)
    ∧ (call_groq (fun _ => some "sk-test") (fun _ => none)
          (fun _ _ => .completes ⟨[⟨⟨"assistant", ""⟩⟩]⟩) "s" "u").fst = "" := by
  exact ⟨⟨rfl, by decide⟩, rfl⟩

/-- C5 (amended): with a valid credential, `call_groq` always yields a
string result — either the first completion choice's content verbatim
(possibly empty), or an error string prefixed with `"API Error: "` — and
never an unhandled exception (the function is total). -/
theorem c5_amended_total_result (env secrets : String → Option String)
    (world : GroqClient → ChatRequest → CallOutcome)
    (sp up : String) (client : GroqClient)
    (hc : get_groq_client env secrets = some client) :
    (∃ ch rest, world client (buildRequest sp up) = .completes ⟨ch :: rest⟩
        ∧ (call_groq env secrets world sp up).fst = ch.message.content)
    ∨ (∃ detail, (call_groq env secrets world sp up).fst = "API Error: " ++ detail) := by
  unfold call_groq
  rw [hc]
  cases hw : world client (buildRequest sp up) with
  | completes c =>
      obtain ⟨choices⟩ := c
      cases choices with
      | nil => exact Or.inr ⟨indexErrorDetail, by simp [hw]⟩
      | cons ch rest => exact Or.inl ⟨ch, rest, rfl, by simp [hw]⟩
  | raises detail => exact Or.inr ⟨detail, by simp [hw]⟩

/-- C5 (witness): the amended theorem at a concrete world that raises. -/
theorem c5_witness :
    (∃ ch rest,
        (fun (_ : GroqClient) (_ : ChatRequest) => CallOutcome.raises "x") ⟨"sk-test"⟩
            (buildRequest "s" "u") = .completes ⟨ch :: rest⟩
          ∧ (call_groq (fun _ => some "sk-test") (fun _ => none)
              (fun _ _ => .raises "x") "s" "u").fst = ch.message.content)
    ∨ (∃ detail, (call_groq (fun _ => some "sk-test") (fun _ => none)
            (fun _ _ => .raises "x") "s" "u").fst = "API Error: " ++ detail) :=
  c5_amended_total_result (fun _ => some "sk-test") (fun _ => none)
    (fun _ _ => .raises "x") "s" "u" ⟨"sk-test"⟩ rfl

/-- C6: on a successful exchange (the call completes with at least one
choice), `call_groq` returns the first choice's `message.content`
verbatim. -/
theorem c6_success_verbatim (env secrets : String → Option String)
    (world : GroqClient → ChatRequest → CallOutcome)
    (sp up : String) (ch : Choice) (rest : List Choice) (client : GroqClient)
    (hc : get_groq_client env secrets = some client)
    (hw : world client (buildRequest sp up) = .completes ⟨ch :: rest⟩) :
    (call_groq env secrets world sp up).fst = ch.message.content := by
  unfold call_groq
  rw [hc]
  simp only [hw]

/-- C6 (witness): the spec's concrete scenario — a payload whose first
choice's content is the markdown string is returned literally. -/
theorem c6_witness :
    (call_groq (fun _ => some "sk-test") (fun _ => none)
        (fun _ _ => .completes ⟨[⟨⟨"assistant", "## Target Audience\n..."⟩⟩]⟩)
        "You are a startup expert..." "An AI-powered 3D generation tool").fst
      = "## Target Audience\n..." :=
  c6_success_verbatim _ _ _ "You are a startup expert..."
    "An AI-powered 3D generation tool" ⟨⟨"assistant", "## Target Audience\n..."⟩⟩ []
    ⟨"sk-test"⟩ rfl rfl

/-- C7: whenever a request is issued, it is the unique request of the call
and carries the fixed model identifier, the ordered two-message exchange
(system role with the system prompt, then user role with the user prompt),
a temperature within `0.6`–`0.7`, and a max-token limit within
`1024`–`2000`. -/
theorem c7_request_shape (env secrets : String → Option String)
    (world : GroqClient → ChatRequest → CallOutcome)
    (sp up : String) (client : GroqClient)
    (hc : get_groq_client env secrets = some client) :
    ∃ req, (call_groq env secrets world sp up).snd = [req]
      ∧ req.model = MODEL_NAME
      ∧ req.messages = [⟨"system", sp⟩, ⟨"user", up⟩]
      ∧ 6/10 ≤ req.temperature ∧ req.temperature ≤ 7/10
      ∧ 1024 ≤ req.maxTokens ∧ req.maxTokens ≤ 2000 := by
  refine ⟨buildRequest sp up, ?_, rfl, rfl, by norm_num [buildRequest], le_refl _,
    le_refl _, by norm_num [buildRequest]⟩
  unfold call_groq
  rw [hc]

/-- C7 (witness): the theorem at a concrete environment and prompt pair. -/
theorem c7_witness :
    ∃ req, (call_groq (fun _ => some "sk-test") (fun _ => none)
          (fun _ _ => .raises "x") "sys" "usr").snd = [req]
      ∧ req.model = MODEL_NAME
      ∧ req.messages = [⟨"system", "sys"⟩, ⟨"user", "usr"⟩]
      ∧ 6/10 ≤ req.temperature ∧ req.temperature ≤ 7/10
      ∧ 1024 ≤ req.maxTokens ∧ req.maxTokens ≤ 2000 :=
  c7_request_shape (fun _ => some "sk-test") (fun _ => none)
    (fun _ _ => .raises "x") "sys" "usr" ⟨"sk-test"⟩ rfl

/-- C8: a single call issues exactly one outbound request when the
credential resolves and zero otherwise (in particular at most one — no
retry); and the result depends only on the prompt pair and the external
environment: the outcome of the one constructed request determines the
whole result, so two worlds agreeing there give identical results.  The
embedding is a pure function of its arguments, reflecting that `call_groq`
mutates no program state. -/
theorem c8_single_stateless_request (env secrets : String → Option String)
    (world world2 : GroqClient → ChatRequest → CallOutcome) (sp up : String) :
    (call_groq env secrets world sp up).snd.length
      = (if (get_groq_client env secrets).isSome then 1 else 0)
    ∧ (∀ client, get_groq_client env secrets = some client →
        world client (buildRequest sp up) = world2 client (buildRequest sp up) →
        call_groq env secrets world sp up = call_groq env secrets world2 sp up) := by
  constructor
  · unfold call_groq
    cases hc : get_groq_client env secrets <;> rfl
  · intro client hc hagree
    simp only [call_groq, hc, hagree]

/-- C8 (witness): the theorem at concrete sources, worlds and prompts. -/
theorem c8_witness :
    (call_groq (fun _ => some "sk-test") (fun _ => none)
        (fun _ _ => .raises "x") "s" "u").snd.length
      = (if (get_groq_client (fun _ => some "sk-test") (fun _ => none)).isSome
          then 1 else 0)
    ∧ call_groq (fun _ => some "sk-test") (fun _ => none)
          (fun _ _ => .raises "x") "s" "u"
        = call_groq (fun _ => some "sk-test") (fun _ => none)
          (fun _ _ => .raises "x") "s" "u" :=
  ⟨(c8_single_stateless_request (fun _ => some "sk-test") (fun _ => none)
      (fun _ _ => .raises "x") (fun _ _ => .raises "x") "s" "u").1,
   (c8_single_stateless_request (fun _ => some "sk-test") (fun _ => none)
      (fun _ _ => .raises "x") (fun _ _ => .raises "x") "s" "u").2 ⟨"sk-test"⟩ rfl rfl⟩

/-! ### Claims about authentication and budget rendering -/

/-- C9: the login form marks the session authenticated and stores the user
record exactly when the username is a key of `USERS` and the password
equals that user's stored password; on any other pair the session state is
left unchanged and only the error flag is raised. -/
theorem c9_login_iff (st : SessionState) (username password : String) :
    (∀ u, lookupUser username = some u → u.password = password →
        login_submit st username password
          = ({ authenticated := true, user := some u }, false))
    ∧ ((∀ u, lookupUser username = some u → u.password ≠ password) →
        login_submit st username password = (st, true)) := by
  constructor
  · intro u hu hp
    unfold login_submit
    rw [hu]
    simp [hp]
  · intro h
    unfold login_submit
    cases hu : lookupUser username with
    | none => rfl
    | some u =>
        have := h u hu
        simp [this]

/-- C9 (witness): the theorem at the concrete pair (`"admin"`,
`"password"`). -/
theorem c9_witness :
    login_submit ⟨false, none⟩ "admin" "password"
      = ({ authenticated := true,
           user := some ⟨"password", "System Admin", "Admin"⟩ }, false) :=
  (c9_login_iff ⟨false, none⟩ "admin" "password").1
    ⟨"password", "System Admin", "Admin"⟩ rfl rfl

/-- C10: for every project row, both the project directory and the
analytics burn-rate view compute the same budget-utilization percentage —
`int((spent / budget) * 100)` when the budget is positive and `0`
otherwise — and the (fallible) division never fails: the rendered value is
always `some`, so no rendering operation divides by zero. -/
theorem c10_budget_pct_no_div_zero (row : ProjectRow) :
    projectsBudgetPct row
      = some (if row.budget > 0 then pyInt (row.spent / row.budget * 100) else 0)
    ∧ analyticsBudgetPct row = projectsBudgetPct row := by
  refine ⟨?_, rfl⟩
  unfold projectsBudgetPct pyDivide
  by_cases h : row.budget > 0
  · simp [h, h.ne']
  · simp [h]

end StudioFlow
